import Mathlib

/-
  Verification development for the tg-vpn-bot repository: a shallow
  embedding of the provisioning/reconciliation core (3X-UI session
  client, payment reconciler, subscription lifecycle store, scheduled
  sweeps) together with theorems settling the frozen claims.
-/

namespace TgVpnBot

/-- Error taxonomy of the embedded code: transport failures thrown by
`fetch`, missing server configuration, failed panel login, non-2xx API
statuses, `success:false` envelopes, and notification failures. -/
inductive XErr where
  | transportCode : Nat → XErr
  | serverNotFound : String → XErr
  | loginFailed : Nat → XErr
  | noCookie : XErr
  | apiStatus : Nat → XErr
  | apiFailed : XErr
  | notifyFailed : XErr
  | noAttempts : XErr
  deriving DecidableEq, Repr

/-- Payment status union from `types.ts`:
`'pending' | 'completed' | 'expired' | 'refunded'`. -/
inductive PayStatus where
  | pending
  | completed
  | expired
  | refunded
  deriving DecidableEq, Repr

namespace Xui

/-- Model of `res.ok` of the Fetch API: status in the 2xx range. -/
def respOk (status : Nat) : Bool :=
  decide (200 ≤ status) && decide (status < 300)

/-- The backoff delay slept after failed attempt `attempt` in
`fetchWithRetry` (`vpn-manager.ts`): `Math.pow(2, attempt) * 1000`. -/
def backoffDelay (attempt : Nat) : Nat :=
  2 ^ attempt * 1000

/-- The per-attempt hard timeout passed to every fetch in
`fetchWithRetry`: `AbortSignal.timeout(15_000)`. -/
def perAttemptTimeoutMs : Nat := 15000

/-- Loop body of `fetchWithRetry` (`vpn-manager.ts` lines 34-59).
`outcome i` is the transport result of attempt `i` (a returned response
of type `α`, or a thrown error).  `remaining` counts attempts still
allowed (initially `retries`), `attempt` is the current index,
`lastErr` the last caught error, `delays` the backoff sleeps performed
so far.  Returns the overall result, the list of delays slept, and the
number of attempts consumed. -/
def fetchGo {α : Type} (outcome : Nat → Except XErr α) :
    Nat → Nat → Option XErr → List Nat → Except XErr α × List Nat × Nat
  | 0, attempt, lastErr, delays =>
      (Except.error (lastErr.getD XErr.noAttempts), delays, attempt)
  | remaining + 1, attempt, lastErr, delays =>
      match outcome attempt with
      | Except.ok r => (Except.ok r, delays, attempt + 1)
      | Except.error e =>
          if remaining > 0 then
            fetchGo outcome remaining (attempt + 1) (some e)
              (delays ++ [backoffDelay attempt])
          else
            (Except.error e, delays, attempt + 1)

/-- Default retry budget of `fetchWithRetry` (`retries = 3`). -/
def defaultRetries : Nat := 3

/-- Model of `fetchWithRetry(url, options)` with the default budget of 3
attempts, abstracted over the per-attempt transport outcomes. -/
def fetchWithRetry {α : Type} (outcome : Nat → Except XErr α) :
    Except XErr α × List Nat × Nat :=
  fetchGo outcome defaultRetries 0 none []

/-- Parsed panel response as seen by `apiRequest`: the HTTP status and
the decoded `{success, msg?, obj?}` envelope with obj of type `α`
(`null`/absent modelled as `none`). -/
structure XResp (α : Type) where
  status : Nat
  success : Bool
  obj : Option α
  deriving DecidableEq, Repr

/-- Environment of one `apiRequest` call: the cached session cookie (if
any), and the results of the (at most) one initial login, the first
request, the re-login after a 401, and the retried request.  Each
request result is the outcome of the corresponding `fetchWithRetry`
call. -/
structure ApiEnv (α : Type) where
  cachedCookie : Option String
  loginResult : Except XErr String
  firstResult : Except XErr (XResp α)
  reloginResult : Except XErr String
  secondResult : Except XErr (XResp α)
  deriving Repr

/-- Tail of `apiRequest` (`vpn-manager.ts` lines 134-145): after the
optional 401-retry, a non-ok status throws, then a `success:false`
envelope throws, otherwise `json.obj` is returned. -/
def finishResp {α : Type} (r : XResp α) : Except XErr (Option α) :=
  if respOk r.status = false then Except.error (XErr.apiStatus r.status)
  else if r.success = false then Except.error XErr.apiFailed
  else Except.ok r.obj

/-- Model of `apiRequest` (`vpn-manager.ts` lines 101-146): ensure a session
(login if no cached cookie), issue the request, on a 401 re-login once
and retry exactly once, then check status and envelope.  Also returns
the number of login calls performed. -/
def apiRequest {α : Type} (env : ApiEnv α) : Except XErr (Option α) × Nat :=
  match env.cachedCookie with
  | none =>
      match env.loginResult with
      | Except.error e => (Except.error e, 1)
      | Except.ok _ => apiBody env 1
  | some _ => apiBody env 0
where
  /-- The request/retry body, `logins` counting logins already done. -/
  apiBody (env : ApiEnv α) (logins : Nat) : Except XErr (Option α) × Nat :=
    match env.firstResult with
    | Except.error e => (Except.error e, logins)
    | Except.ok r =>
        if r.status = 401 then
          match env.reloginResult with
          | Except.error e => (Except.error e, logins + 1)
          | Except.ok _ =>
              match env.secondResult with
              | Except.error e => (Except.error e, logins + 1)
              | Except.ok r2 => (finishResp r2, logins + 1)
        else
          (finishResp r, logins)

/-- Decoded body of `getClientTraffics`: `{ up: number; down: number }`
with each field possibly absent (`obj.up || 0` in the source). -/
structure TrafficObj where
  up : Option Nat
  down : Option Nat
  deriving DecidableEq, Repr

/-- Record `XuiClientTraffic` from `types.ts`. -/
structure XuiClientTraffic where
  up : Nat
  down : Nat
  total : Nat
  deriving DecidableEq, Repr

/-- Model of `getClientTraffic` (`vpn-manager.ts` lines 191-207): delegates to
`apiRequest`; a `null` obj becomes zero usage, otherwise `up`/`down`
default to 0 and `total` is their sum.  Errors thrown by `apiRequest`
propagate. -/
def getClientTraffic (env : ApiEnv TrafficObj) :
    Except XErr XuiClientTraffic × Nat :=
  match apiRequest env with
  | (Except.error e, n) => (Except.error e, n)
  | (Except.ok none, n) => (Except.ok ⟨0, 0, 0⟩, n)
  | (Except.ok (some o), n) =>
      (Except.ok ⟨o.up.getD 0, o.down.getD 0, o.up.getD 0 + o.down.getD 0⟩, n)

/-- Model of `healthCheck` (`vpn-manager.ts` lines 237-245): probe
`{panelUrl}/` through `fetchWithRetry` with a budget of 2 attempts;
`res.ok || res.status === 302` on a returned response, `false` on any
thrown error (the whole body is wrapped in try/catch).  `outcome i` is
the transport result (HTTP status) of probe attempt `i`. -/
def healthCheck (outcome : Nat → Except XErr Nat) : Bool :=
  match (fetchGo outcome 2 0 none []).1 with
  | Except.error _ => false
  | Except.ok status => respOk status || decide (status = 302)

/-- Model of `healthCheckAll` (`vpn-manager.ts` lines 247-256): probe every
configured server and record one boolean per server code.  `probe c`
gives the per-attempt transport outcomes of the probe of server `c`. -/
def healthCheckAll (codes : List String)
    (probe : String → Nat → Except XErr Nat) : List (String × Bool) :=
  codes.map (fun c => (c, healthCheck (probe c)))

/-- Configured server record (the fields of `ServerEnvConfig` used
here). -/
structure ServerCfg where
  code : String
  deriving DecidableEq, Repr

/-- Model of `getServerConfig` (`vpn-manager.ts` lines 28-32): look the code up
in `config.servers`; a miss throws immediately — no retry. -/
def getServerConfig (servers : List ServerCfg) (code : String) :
    Except XErr ServerCfg :=
  match servers.find? (fun s => decide (s.code = code)) with
  | none => Except.error (XErr.serverNotFound code)
  | some s => Except.ok s

end Xui

namespace Store

/-- Payment row as touched by `expireOldPayments` (`database.ts`):
identity, creation time (epoch seconds), status. -/
structure PayRow where
  id : Nat
  createdAt : Nat
  status : PayStatus
  deriving DecidableEq, Repr

/-- Seconds in 24 hours, the staleness window of `expireOldPayments`. -/
def staleWindow : Nat := 86400

/-- The `WHERE` clause of `expireOldPayments`:
`status = 'pending' AND created_at <= datetime('now', '-24 hours')`,
i.e. the row is pending and was created at least 24h before `now`. -/
def staleCond (now : Nat) (p : PayRow) : Bool :=
  decide (p.status = PayStatus.pending) && decide (p.createdAt + staleWindow ≤ now)

/-- The update applied to one row by `expireOldPayments`. -/
def expireRow (now : Nat) (p : PayRow) : PayRow :=
  if staleCond now p then { p with status := PayStatus.expired } else p

/-- Model of `expireOldPayments` (`database.ts` lines 287-293):
`UPDATE payments SET status='expired' WHERE status='pending' AND
created_at <= datetime('now','-24 hours')`, returning
`result.changes` (the number of rows matched and updated). -/
def expireOldPayments (now : Nat) (rows : List PayRow) :
    List PayRow × Nat :=
  (rows.map (expireRow now), (rows.filter (staleCond now)).length)

/-- Modelled from the claim wording, for comparison only: a payment is
stale when pending and its age strictly exceeds 24 hours. -/
def claimStaleCond (now : Nat) (p : PayRow) : Bool :=
  decide (p.status = PayStatus.pending) && decide (p.createdAt + staleWindow < now)

end Store

namespace Sweep

/-- Subscription row as touched by the expiry sweep (`cron.ts`):
identity, active flag, expiry time (epoch seconds). -/
structure SubR where
  id : Nat
  isActive : Bool
  expiresAt : Nat
  deriving DecidableEq, Repr

/-- Model of `getExpiredSubscriptions` (`database.ts`):
`WHERE s.is_active = 1 AND s.expires_at <= datetime('now')`. -/
def getExpiredSubscriptions (now : Nat) (subs : List SubR) : List SubR :=
  subs.filter (fun s => s.isActive && decide (s.expiresAt ≤ now))

/-- Model of `deactivateSubscription` (`database.ts`):
`UPDATE subscriptions SET is_active = 0 WHERE id = ?`. -/
def deactivateSubscription (i : Nat) (subs : List SubR) : List SubR :=
  subs.map (fun s => if s.id = i then { s with isActive := false } else s)

/-- Model of `getActiveSubscriptions` restricted to the fields modelled here:
`WHERE ... is_active = 1`. -/
def activeSubs (subs : List SubR) : List SubR :=
  subs.filter (fun s => s.isActive)

/-- Loop body of the every-minute cron tick (`cron.ts` lines 15-40):
for each expired subscription, attempt `removeClient` (its outcome
`removeOk sub.id` is caught and only logged), then unconditionally
`deactivateSubscription(sub.id)`. -/
def expirySweepDeact (removeOk : Nat → Bool) (expired : List SubR)
    (subs : List SubR) : List SubR :=
  expired.foldl
    (fun acc sub =>
      let _ := removeOk sub.id
      deactivateSubscription sub.id acc)
    subs

/-- One tick of the expiry sweep over the store. -/
def expirySweepTick (now : Nat) (removeOk : Nat → Bool)
    (subs : List SubR) : List SubR :=
  expirySweepDeact removeOk (getExpiredSubscriptions now subs) subs

/-- The remote removals attempted during one tick: one per expired
subscription, regardless of outcome. -/
def expirySweepAttempts (now : Nat) (subs : List SubR) : List Nat :=
  (getExpiredSubscriptions now subs).map (fun s => s.id)

end Sweep

namespace Tariffs

/-- Union `TariffId` from `types.ts`. -/
inductive TariffId where
  | trial
  | week
  | month
  | quarter
  | year
  deriving DecidableEq, Repr

/-- Tariff record from `types.ts` (display label omitted). -/
structure Tariff where
  id : TariffId
  price : Nat
  days : Nat
  minutes : Option Nat
  maxDevices : Nat
  deriving DecidableEq, Repr

/-- Table `ruTariffs` from `tariffs.ts`. -/
def ruTariffs : List Tariff :=
  [⟨TariffId.trial, 0, 1, none, 1⟩,
   ⟨TariffId.week, 50, 7, none, 2⟩,
   ⟨TariffId.month, 150, 30, none, 3⟩,
   ⟨TariffId.quarter, 400, 90, none, 3⟩,
   ⟨TariffId.year, 1200, 365, none, 3⟩]

/-- Table `nlTariffs` from `tariffs.ts`. -/
def nlTariffs : List Tariff :=
  [⟨TariffId.trial, 0, 1, none, 1⟩,
   ⟨TariffId.week, 80, 7, none, 2⟩,
   ⟨TariffId.month, 250, 30, none, 3⟩,
   ⟨TariffId.quarter, 650, 90, none, 3⟩,
   ⟨TariffId.year, 2000, 365, none, 3⟩]

/-- Lookup in the `serverTariffs` record from `tariffs.ts`. -/
def getServerTariffs (serverCode : String) : Option (List Tariff) :=
  if serverCode = "ru" then some ruTariffs
  else if serverCode = "nl" then some nlTariffs
  else none

/-- Model of `getTariff` from `tariffs.ts`. -/
def getTariff (serverCode : String) (tariffId : TariffId) : Option Tariff :=
  match getServerTariffs serverCode with
  | none => none
  | some ts => ts.find? (fun t => decide (t.id = tariffId))

end Tariffs

namespace Act

/-- Server row fields used by `activateSubscription` (`database.ts`
`servers` table). -/
structure Server where
  sid : Nat
  code : String
  deriving DecidableEq, Repr

/-- Payment row fields used by `activateSubscription`. -/
structure Payment where
  id : Nat
  telegramId : Nat
  serverId : Nat
  tariffId : Tariffs.TariffId
  deriving DecidableEq, Repr

/-- Subscription row created by `createSubscription` (`database.ts`). -/
structure SubRow where
  id : Nat
  telegramId : Nat
  serverId : Nat
  clientUuid : String
  clientEmail : String
  tariffId : Tariffs.TariffId
  expiresAt : Nat
  maxDevices : Nat
  trafficLimit : Nat
  deriving DecidableEq, Repr

/-- The local store mutated by `activateSubscription`: subscription
rows, payment statuses keyed by payment id, and the set of telegram ids
with `trial_used = 1`. -/
structure Db where
  subs : List SubRow
  payments : List (Nat × PayStatus)
  trialUsed : List Nat
  deriving DecidableEq, Repr

/-- Inputs and remote outcomes of one `activateSubscription` call
(`payments.ts` lines 82-186): whether the bot instance is set, the
payment, the results of the `getServerById` and `getTariff` lookups,
the generated client UUID, the current time (epoch ms), the outcome of
the remote `addClient` call, and the outcome of the user
notification. -/
structure ActIn where
  botSet : Bool
  payment : Payment
  serverLookup : Option Server
  tariffLookup : Option Tariffs.Tariff
  clientUuid : String
  now : Nat
  addClientResult : Except XErr Unit
  notifyResult : Except XErr Unit

/-- Expiry computation of `activateSubscription`: a minutes-based
tariff expires after `minutes * 60_000` ms, otherwise after
`days * 24 * 60 * 60_000` ms. -/
def expiryMs (now : Nat) (t : Tariffs.Tariff) : Nat :=
  match t.minutes with
  | some m => now + m * 60000
  | none => now + t.days * 24 * 60 * 60000

/-- Model of `completePayment` (`database.ts`):
`UPDATE payments SET status='completed' ... WHERE id = ?`. -/
def completePayment (pid : Nat) (payments : List (Nat × PayStatus)) :
    List (Nat × PayStatus) :=
  payments.map (fun pr => if pr.1 = pid then (pr.1, PayStatus.completed) else pr)

/-- Model of `activateSubscription` (`payments.ts` lines 82-186).  Structure of
the source: return silently when the bot is unset, the server lookup
fails, or the tariff lookup fails (each only logged); then await the
remote `addClient` — a thrown error propagates with no local mutation;
then `createSubscription`, `completePayment`, `markTrialUsed` (for the
trial tariff), and finally the user notification, whose thrown error
propagates after the mutations. -/
def activateSubscription (db : Db) (inp : ActIn) : Db × Except XErr Unit :=
  if inp.botSet = false then (db, Except.ok ())
  else
    match inp.serverLookup with
    | none => (db, Except.ok ())
    | some server =>
        match inp.tariffLookup with
        | none => (db, Except.ok ())
        | some tariff =>
            match inp.addClientResult with
            | Except.error e => (db, Except.error e)
            | Except.ok _ =>
                let clientEmail :=
                  "tg_" ++ toString inp.payment.telegramId ++ "_"
                    ++ server.code ++ "_" ++ inp.clientUuid.take 8
                let sub : SubRow :=
                  ⟨db.subs.length + 1, inp.payment.telegramId, server.sid,
                   inp.clientUuid, clientEmail, tariff.id,
                   expiryMs inp.now tariff, tariff.maxDevices, 0⟩
                let db1 : Db := { db with subs := db.subs ++ [sub] }
                let db2 : Db :=
                  { db1 with payments := completePayment inp.payment.id db1.payments }
                let db3 : Db :=
                  if tariff.id = Tariffs.TariffId.trial then
                    { db2 with trialUsed := db2.trialUsed ++ [inp.payment.telegramId] }
                  else db2
                (db3, inp.notifyResult)

end Act

namespace Conc

/-- Payment row fields used by the two activation triggers. -/
structure PayR where
  id : Nat
  invoiceId : String
  status : PayStatus
  deriving DecidableEq, Repr

/-- Shared store state for the concurrency analysis: payment rows and
the list of payment ids for which an activation created a Grant
(subscription) row. -/
structure St where
  payments : List PayR
  subs : List Nat
  deriving DecidableEq, Repr

/-- Model of `getPendingPayments` (`database.ts`):
`SELECT * FROM payments WHERE status = 'pending'`. -/
def getPendingPayments (st : St) : List PayR :=
  st.payments.filter (fun p => decide (p.status = PayStatus.pending))

/-- Model of `getPaymentByInvoiceId` (`database.ts`). -/
def getPaymentByInvoice (label : String) (st : St) : Option PayR :=
  st.payments.find? (fun p => decide (p.invoiceId = label))

/-- Model of `completePayment` on this state. -/
def completePay (pid : Nat) (st : St) : St :=
  let updated := st.payments.map
    (fun p => if p.id = pid then { p with status := PayStatus.completed } else p)
  { st with payments := updated }

/-- The store effect of a successful `activateSubscription(p)`:
`createSubscription` (a Grant attributed to `p.id`) followed by
`completePayment(p.id)`.  No status check occurs inside. -/
def activateGrant (p : PayR) (st : St) : St :=
  completePay p.id { st with subs := st.subs ++ [p.id] }

/-- Fetch phase of `handleCheckPayment` (`handlers.ts` lines 161-189):
`getPaymentByInvoiceId(label)`; abort unless the payment exists with
status `'pending'`.  The surviving row is the local copy used later. -/
def checkFetch (label : String) (st : St) : Option PayR :=
  match getPaymentByInvoice label st with
  | none => none
  | some p => if p.status = PayStatus.pending then some p else none

/-- Activation phase of `handleCheckPayment`, run after the awaited
gateway query returned `paid`: activate the previously fetched local
copy, with no re-check of the stored status. -/
def checkAct (paid : Bool) (fetched : Option PayR) (st : St) : St :=
  match fetched with
  | none => st
  | some p => if paid then activateGrant p st else st

/-- Fetch phase of `pollPendingPayments` (`payments.ts` lines
190-207): the batch of pending rows, read once at the start of the
tick. -/
def pollFetch (st : St) : List PayR :=
  getPendingPayments st

/-- Activation phase of `pollPendingPayments`: for each fetched row
with a non-empty invoice label, query the gateway (`paid`) and, when
confirmed, activate the stale local copy without re-reading its
status. -/
def pollAct (paid : String → Bool) (fetched : List PayR) (st : St) : St :=
  fetched.foldl
    (fun s p =>
      if p.invoiceId ≠ "" then (if paid p.invoiceId then activateGrant p s else s)
      else s)
    st

/-- Run of `handleCheckPayment` to completion with no interleaving. -/
def checkRun (label : String) (paid : Bool) (st : St) : St :=
  checkAct paid (checkFetch label st) st

/-- Run of `pollPendingPayments` to completion with no interleaving. -/
def pollRun (paid : String → Bool) (st : St) : St :=
  pollAct paid (pollFetch st) st

/-- The racing interleaving: both paths fetch the same pending payment
before either activates (the gateway queries are suspension points),
then both activate. -/
def raceRun (label : String) (st : St) : St :=
  let fetchedCheck := checkFetch label st
  let fetchedPoll := pollFetch st
  let st1 := checkAct true fetchedCheck st
  pollAct (fun _ => true) fetchedPoll st1

end Conc

namespace Buy

/-- Control-flow outcome of `handleBuy` (`handlers.ts` lines
97-157). -/
inductive BuyOutcome where
  | noServer
  | noTariff
  | salesRejected
  | trialUsedAlready
  | trialActivated
  | paidInvoiceCreated
  deriving DecidableEq, Repr

/-- Model of `handleBuy` (`handlers.ts` lines 97-157), with the payment store
modelled as the list of created payment amounts: resolve the server and
tariff; reject when `salesBlocked && tariff.price > 0` before any
payment is created; for the trial tariff (unless already used) create a
zero-amount payment and immediately `activateSubscription`; otherwise
create a payment for `tariff.price` and hand out the pay link. -/
def handleBuy (salesBlocked : Bool) (serverFound : Bool)
    (tariffLookup : Option Tariffs.Tariff) (trialUsed : Bool)
    (payments : List Nat) : BuyOutcome × List Nat :=
  if serverFound = false then (BuyOutcome.noServer, payments)
  else
    match tariffLookup with
    | none => (BuyOutcome.noTariff, payments)
    | some tariff =>
        if salesBlocked && decide (tariff.price > 0) then
          (BuyOutcome.salesRejected, payments)
        else if tariff.id = Tariffs.TariffId.trial then
          if trialUsed then (BuyOutcome.trialUsedAlready, payments)
          else (BuyOutcome.trialActivated, payments ++ [0])
        else
          (BuyOutcome.paidInvoiceCreated, payments ++ [tariff.price])

end Buy

/-! Theorems settling the claims. -/

/-- Attempt counter bound for `fetchGo`: starting at index `att` with
`rem` attempts allowed, at most `att + rem` attempts are consumed. -/
theorem fetchGo_attempts_le {α : Type} (o : Nat → Except XErr α) :
    ∀ (rem att : Nat) (lastE : Option XErr) (ds : List Nat),
      (Xui.fetchGo o rem att lastE ds).2.2 ≤ att + rem := by
  intro rem
  induction rem with
  | zero =>
      intro att lastE ds
      simp [Xui.fetchGo]
  | succ n ih =>
      intro att lastE ds
      simp only [Xui.fetchGo]
      cases ho : o att with
      | ok r => simp
      | error e =>
          simp only
          split
          · exact le_trans (ih (att + 1) (some e) _) (by omega)
          · simp

/-- C4: for every outbound HTTP request, network-level failures are
retried up to exactly 3 attempts, exhausting them surfaces the last
transport error, the per-attempt timeout is 15s — but the backoff
delays actually slept between attempts are 1s and 2s (no 4s delay can
occur, since there is no fourth attempt). -/
theorem fetchWithRetry_spec {α : Type} (o : Nat → Except XErr α) :
    (Xui.fetchWithRetry o).2.2 ≤ 3 ∧
    (∀ e0 e1 e2, o 0 = Except.error e0 → o 1 = Except.error e1 →
        o 2 = Except.error e2 →
        Xui.fetchWithRetry o = (Except.error e2, [1000, 2000], 3)) ∧
    Xui.perAttemptTimeoutMs = 15000 := by
  refine ⟨?_, ?_, rfl⟩
  · exact fetchGo_attempts_le o 3 0 none []
  · intro e0 e1 e2 h0 h1 h2
    simp [Xui.fetchWithRetry, Xui.defaultRetries, Xui.fetchGo, h0, h1, h2,
      Xui.backoffDelay]

/-- C4 witness: all three attempts failing with distinct transport
errors surfaces the last one after sleeping 1s and 2s. -/
theorem fetchWithRetry_spec_witness :
    Xui.fetchWithRetry (fun i => (Except.error (XErr.transportCode i) : Except XErr Nat))
      = (Except.error (XErr.transportCode 2), [1000, 2000], 3) :=
  (fetchWithRetry_spec (fun i => (Except.error (XErr.transportCode i) : Except XErr Nat))).2.1
    (XErr.transportCode 0) (XErr.transportCode 1) (XErr.transportCode 2) rfl rfl rfl

/-- C4 counterexample: when every attempt fails, the backoff delays
slept are exactly 1s and 2s — the claimed 4s delay between attempts
never occurs. -/
theorem fetchWithRetry_delays_cex :
    (Xui.fetchWithRetry
        (fun i => (Except.error (XErr.transportCode i) : Except XErr Nat))).2.1
      = [1000, 2000] ∧
    ([1000, 2000] : List Nat) ≠ [1000, 2000, 4000] := by
  constructor
  · rfl
  · decide

/-- Rows produced by `expireOldPayments` are never stale again. -/
theorem expireRow_not_stale (now : Nat) (p : Store.PayRow) :
    Store.staleCond now (Store.expireRow now p) = false := by
  unfold Store.expireRow
  split
  · simp [Store.staleCond]
  · rename_i h
    simpa using h

/-- Rows on which `expireRow` is the identity: the non-stale ones. -/
theorem expireRow_fix (now : Nat) (q : Store.PayRow)
    (h : Store.staleCond now q = false) : Store.expireRow now q = q := by
  simp [Store.expireRow, h]

/-- C5 (amended): `expireOldPayments` transitions exactly the pending
Payments of age at least 24 hours (`created_at ≤ now − 24h`, boundary
included) to expired, leaves every other row unchanged, returns the
number of rows changed, and is idempotent: an immediately repeated run
changes nothing and returns 0. -/
theorem expireOldPayments_spec (now : Nat) (rows : List Store.PayRow) :
    (∀ p ∈ rows, p.status = PayStatus.pending → p.createdAt + 86400 ≤ now →
        { p with status := PayStatus.expired } ∈ (Store.expireOldPayments now rows).1) ∧
    (∀ p ∈ rows, ¬(p.status = PayStatus.pending ∧ p.createdAt + 86400 ≤ now) →
        p ∈ (Store.expireOldPayments now rows).1) ∧
    ((Store.expireOldPayments now rows).2
        = rows.countP (fun p => decide (p.status = PayStatus.pending)
            && decide (p.createdAt + 86400 ≤ now))) ∧
    (Store.expireOldPayments now (Store.expireOldPayments now rows).1
        = ((Store.expireOldPayments now rows).1, 0)) := by
  refine ⟨?_, ?_, ?_, ?_⟩
  · intro p hp hst hage
    refine List.mem_map.mpr ⟨p, hp, ?_⟩
    simp [Store.expireRow, Store.staleCond, Store.staleWindow, hst, hage]
  · intro p hp hcond
    refine List.mem_map.mpr ⟨p, hp, ?_⟩
    have : Store.staleCond now p = false := by
      simp only [Store.staleCond, Store.staleWindow]
      simpa using hcond
    simp [Store.expireRow, this]
  · rw [List.countP_eq_length_filter]
    rfl
  · have hnil : ((Store.expireOldPayments now rows).1).filter (Store.staleCond now) = [] := by
      apply List.filter_eq_nil_iff.mpr
      intro q hq
      obtain ⟨p, _, rfl⟩ := List.mem_map.mp hq
      simp [expireRow_not_stale]
    have hmap : ((Store.expireOldPayments now rows).1).map (Store.expireRow now)
        = (Store.expireOldPayments now rows).1 := by
      calc ((Store.expireOldPayments now rows).1).map (Store.expireRow now)
          = ((Store.expireOldPayments now rows).1).map id := by
            apply List.map_congr_left
            intro q hq
            obtain ⟨p, _, rfl⟩ := List.mem_map.mp hq
            simp only [id_eq]
            exact expireRow_fix now _ (expireRow_not_stale now p)
        _ = (Store.expireOldPayments now rows).1 := List.map_id _
    have h2 : Store.expireOldPayments now (Store.expireOldPayments now rows).1
        = (((Store.expireOldPayments now rows).1).map (Store.expireRow now),
           (((Store.expireOldPayments now rows).1).filter (Store.staleCond now)).length) := rfl
    rw [h2, hmap, hnil]
    rfl

/-- C5 witness: a 25h-old pending row is expired while a fresh pending
row and a completed row are untouched, and the second run reports 0. -/
theorem expireOldPayments_spec_witness :
    (⟨1, 0, PayStatus.expired⟩ : Store.PayRow)
        ∈ (Store.expireOldPayments 90000 [⟨1, 0, PayStatus.pending⟩, ⟨2, 80000, PayStatus.pending⟩]).1 ∧
    Store.expireOldPayments 90000
        (Store.expireOldPayments 90000 [⟨1, 0, PayStatus.pending⟩, ⟨2, 80000, PayStatus.pending⟩]).1
      = ((Store.expireOldPayments 90000 [⟨1, 0, PayStatus.pending⟩, ⟨2, 80000, PayStatus.pending⟩]).1, 0) :=
  ⟨(expireOldPayments_spec 90000 [⟨1, 0, PayStatus.pending⟩, ⟨2, 80000, PayStatus.pending⟩]).1
      ⟨1, 0, PayStatus.pending⟩ (by decide) rfl (by decide),
   (expireOldPayments_spec 90000 [⟨1, 0, PayStatus.pending⟩, ⟨2, 80000, PayStatus.pending⟩]).2.2.2⟩

/-- C5 counterexample: a pending row aged exactly 24 hours is expired
by the code (1 row changed), although the claim's strictly-over-24h
condition does not select it. -/
theorem expireOldPayments_boundary_cex :
    (Store.expireOldPayments 86400 [⟨1, 0, PayStatus.pending⟩]).1
        = [⟨1, 0, PayStatus.expired⟩] ∧
    (Store.expireOldPayments 86400 [⟨1, 0, PayStatus.pending⟩]).2 = 1 ∧
    Store.claimStaleCond 86400 ⟨1, 0, PayStatus.pending⟩ = false := by
  decide

/-- C8: `healthCheck` is total — any thrown transport failure and any
response that is neither 2xx nor a redirect yields `false`, never an
error — and `healthCheckAll` returns one boolean entry for every
configured endpoint code. -/
theorem healthCheck_spec (o : Nat → Except XErr Nat) (codes : List String)
    (probe : String → Nat → Except XErr Nat) :
    (∀ e, (Xui.fetchGo o 2 0 none []).1 = Except.error e →
        Xui.healthCheck o = false) ∧
    (∀ s, (Xui.fetchGo o 2 0 none []).1 = Except.ok s →
        s < 200 ∨ 400 ≤ s → Xui.healthCheck o = false) ∧
    ((Xui.healthCheckAll codes probe).map Prod.fst = codes) ∧
    (∀ c ∈ codes, (c, Xui.healthCheck (probe c)) ∈ Xui.healthCheckAll codes probe) := by
  refine ⟨?_, ?_, ?_, ?_⟩
  · intro e he
    simp [Xui.healthCheck, he]
  · intro s hs hrange
    simp only [Xui.healthCheck, hs, Xui.respOk]
    simp only [Bool.or_eq_false_iff, Bool.and_eq_false_iff,
      decide_eq_false_iff_not, not_le, not_lt]
    omega
  · simp only [Xui.healthCheckAll, List.map_map]
    have hfst : (Prod.fst ∘ fun c => (c, Xui.healthCheck (probe c))) = id := by
      funext c
      rfl
    rw [hfst, List.map_id]
  · intro c hc
    exact List.mem_map.mpr ⟨c, hc, rfl⟩

/-- C8 witness: an always-failing probe reports down, a 404 reports
down, and probing the two configured codes yields one entry each. -/
theorem healthCheck_spec_witness :
    Xui.healthCheck (fun _ => Except.error (XErr.transportCode 0)) = false ∧
    Xui.healthCheck (fun _ => Except.ok 404) = false ∧
    (Xui.healthCheckAll ["ru", "nl"] (fun _ _ => Except.ok 200)).map Prod.fst
      = ["ru", "nl"] :=
  ⟨(healthCheck_spec (fun _ => Except.error (XErr.transportCode 0)) [] (fun _ _ => Except.ok 200)).1
      (XErr.transportCode 0) rfl,
   (healthCheck_spec (fun _ => Except.ok 404) [] (fun _ _ => Except.ok 200)).2.1
      404 rfl (by omega),
   (healthCheck_spec (fun _ => Except.ok 200) ["ru", "nl"] (fun _ _ => Except.ok 200)).2.2.1⟩

/-- C3: with a cached session, a 401 on a panel call triggers exactly
one re-login and exactly one retried call, which decides the outcome
(success if the retry succeeds); any other non-success status and a
`success:false` envelope are terminal with no login and no retry (the
result is independent of the retry channels); and a 401 on the retried
call is itself terminal. -/
theorem apiRequest_retry_spec {α : Type} (env : Xui.ApiEnv α) (c : String)
    (hc : env.cachedCookie = some c) :
    (∀ r r2 c2, env.firstResult = Except.ok r → r.status = 401 →
        env.reloginResult = Except.ok c2 → env.secondResult = Except.ok r2 →
        Xui.apiRequest env = (Xui.finishResp r2, 1)) ∧
    (∀ r r2 c2, env.firstResult = Except.ok r → r.status = 401 →
        env.reloginResult = Except.ok c2 → env.secondResult = Except.ok r2 →
        Xui.respOk r2.status = true → r2.success = true →
        Xui.apiRequest env = (Except.ok r2.obj, 1)) ∧
    (∀ r, env.firstResult = Except.ok r → r.status ≠ 401 →
        Xui.apiRequest env = (Xui.finishResp r, 0)) ∧
    (∀ r, env.firstResult = Except.ok r → Xui.respOk r.status = true →
        r.success = false →
        Xui.apiRequest env = (Except.error XErr.apiFailed, 0)) ∧
    (∀ r r2 c2, env.firstResult = Except.ok r → r.status = 401 →
        env.reloginResult = Except.ok c2 → env.secondResult = Except.ok r2 →
        r2.status = 401 →
        Xui.apiRequest env = (Except.error (XErr.apiStatus 401), 1)) ∧
    (∀ r x y, env.firstResult = Except.ok r → r.status ≠ 401 →
        Xui.apiRequest { env with reloginResult := x, secondResult := y }
          = Xui.apiRequest env) := by
  refine ⟨?_, ?_, ?_, ?_, ?_, ?_⟩
  · intro r r2 c2 h1 h401 hre h2
    simp [Xui.apiRequest, Xui.apiRequest.apiBody, hc, h1, h401, hre, h2]
  · intro r r2 c2 h1 h401 hre h2 hok hsucc
    simp [Xui.apiRequest, Xui.apiRequest.apiBody, hc, h1, h401, hre, h2,
      Xui.finishResp, hok, hsucc]
  · intro r h1 hne
    simp [Xui.apiRequest, Xui.apiRequest.apiBody, hc, h1, hne]
  · intro r h1 hok hfail
    have hne : r.status ≠ 401 := by
      intro h401
      rw [h401] at hok
      simp [Xui.respOk] at hok
    simp [Xui.apiRequest, Xui.apiRequest.apiBody, hc, h1, hne,
      Xui.finishResp, hok, hfail]
  · intro r r2 c2 h1 h401 hre h2 h401b
    simp [Xui.apiRequest, Xui.apiRequest.apiBody, hc, h1, h401, hre, h2,
      Xui.finishResp, Xui.respOk, h401b]
  · intro r x y h1 hne
    simp [Xui.apiRequest, Xui.apiRequest.apiBody, hc, h1, hne]

/-- C3 witness: a cached-session call receiving a 401 once, then a
successful retry after one fresh login, returns the retried payload
with exactly one login; and a 500 is terminal with no login. -/
theorem apiRequest_retry_spec_witness :
    Xui.apiRequest
        (⟨some "k", Except.ok "k", Except.ok ⟨401, true, none⟩,
          Except.ok "k2", Except.ok ⟨200, true, some 5⟩⟩ : Xui.ApiEnv Nat)
      = (Except.ok (some 5), 1) ∧
    Xui.apiRequest
        (⟨some "k", Except.ok "k", Except.ok ⟨500, true, none⟩,
          Except.ok "k2", Except.ok ⟨200, true, some 5⟩⟩ : Xui.ApiEnv Nat)
      = (Except.error (XErr.apiStatus 500), 0) :=
  ⟨(apiRequest_retry_spec
      (⟨some "k", Except.ok "k", Except.ok ⟨401, true, none⟩,
        Except.ok "k2", Except.ok ⟨200, true, some 5⟩⟩ : Xui.ApiEnv Nat) "k" rfl).2.1
      ⟨401, true, none⟩ ⟨200, true, some 5⟩ "k2" rfl rfl rfl rfl rfl rfl,
   (apiRequest_retry_spec
      (⟨some "k", Except.ok "k", Except.ok ⟨500, true, none⟩,
        Except.ok "k2", Except.ok ⟨200, true, some 5⟩⟩ : Xui.ApiEnv Nat) "k" rfl).2.2.1
      ⟨500, true, none⟩ rfl (by decide)⟩

/-- C7 (amended): `getClientTraffic` returns zero usage exactly when
`apiRequest` succeeds with a `null` record; on a present record it
totals the defaulted counters; but an `apiRequest` failure (non-2xx
status, `success:false` envelope, or exhausted transport retries)
propagates to the caller as an error. -/
theorem getClientTraffic_spec (env : Xui.ApiEnv Xui.TrafficObj) :
    (∀ n, Xui.apiRequest env = (Except.ok none, n) →
        Xui.getClientTraffic env = (Except.ok ⟨0, 0, 0⟩, n)) ∧
    (∀ o n, Xui.apiRequest env = (Except.ok (some o), n) →
        Xui.getClientTraffic env
          = (Except.ok ⟨o.up.getD 0, o.down.getD 0, o.up.getD 0 + o.down.getD 0⟩, n)) ∧
    (∀ e n, Xui.apiRequest env = (Except.error e, n) →
        Xui.getClientTraffic env = (Except.error e, n)) := by
  refine ⟨?_, ?_, ?_⟩
  · intro n h
    simp [Xui.getClientTraffic, h]
  · intro o n h
    simp [Xui.getClientTraffic, h]
  · intro e n h
    simp [Xui.getClientTraffic, h]

/-- C7 witness: a successful panel reply with a `null` record yields
zero usage. -/
theorem getClientTraffic_spec_witness :
    Xui.getClientTraffic
        (⟨some "k", Except.ok "k", Except.ok ⟨200, true, none⟩,
          Except.ok "k", Except.ok ⟨200, true, none⟩⟩ : Xui.ApiEnv Xui.TrafficObj)
      = (Except.ok ⟨0, 0, 0⟩, 0) :=
  (getClientTraffic_spec
      (⟨some "k", Except.ok "k", Except.ok ⟨200, true, none⟩,
        Except.ok "k", Except.ok ⟨200, true, none⟩⟩ : Xui.ApiEnv Xui.TrafficObj)).1
    0 rfl

/-- C7 counterexample: a panel response carrying a `success:false`
envelope makes `getClientTraffic` surface an error to its caller — it
does not always return a usage record. -/
theorem getClientTraffic_error_cex :
    Xui.getClientTraffic
        (⟨some "k", Except.ok "k", Except.ok ⟨200, false, none⟩,
          Except.ok "k", Except.ok ⟨200, true, none⟩⟩ : Xui.ApiEnv Xui.TrafficObj)
      = (Except.error XErr.apiFailed, 0) := by
  rfl

/-- C1: in an activation that reaches the remote call (bot set, server
and tariff resolved), a raised `addClient` propagates its error with no
local mutation — no Grant row is created and the Payment is not marked
completed; any local mutation implies `addClient` succeeded; and after
a successful `addClient` the Grant row is created and the Payment row
with the payment's id is marked completed. -/
theorem activateSubscription_ordering (db : Act.Db) (inp : Act.ActIn)
    (srv : Act.Server) (tf : Tariffs.Tariff)
    (hb : inp.botSet = true) (hs : inp.serverLookup = some srv)
    (ht : inp.tariffLookup = some tf) :
    (∀ e, inp.addClientResult = Except.error e →
        Act.activateSubscription db inp = (db, Except.error e)) ∧
    ((Act.activateSubscription db inp).1 ≠ db →
        inp.addClientResult = Except.ok ()) ∧
    (inp.addClientResult = Except.ok () →
        (Act.activateSubscription db inp).1.subs.length = db.subs.length + 1 ∧
        ∀ pr ∈ db.payments, pr.1 = inp.payment.id →
          (pr.1, PayStatus.completed) ∈ (Act.activateSubscription db inp).1.payments) := by
  refine ⟨?_, ?_, ?_⟩
  · intro e he
    simp [Act.activateSubscription, hb, hs, ht, he]
  · intro hne
    cases hac : inp.addClientResult with
    | ok u =>
        cases u
        rfl
    | error e =>
        exact absurd (by simp [Act.activateSubscription, hb, hs, ht, hac]) hne
  · intro hok
    constructor
    · by_cases htr : tf.id = Tariffs.TariffId.trial <;>
        simp [Act.activateSubscription, hb, hs, ht, hok, htr]
    · intro pr hpr hpid
      have hmem : (pr.1, PayStatus.completed)
          ∈ Act.completePayment inp.payment.id db.payments := by
        refine List.mem_map.mpr ⟨pr, hpr, ?_⟩
        simp [hpid]
      by_cases htr : tf.id = Tariffs.TariffId.trial <;>
        simpa [Act.activateSubscription, hb, hs, ht, hok, htr] using hmem

/-- C1 witness: a failing `addClient` leaves the store untouched and
propagates the transport error; a succeeding one appends the Grant and
completes the Payment. -/
theorem activateSubscription_ordering_witness :
    Act.activateSubscription
        (⟨[], [(1, PayStatus.pending)], []⟩ : Act.Db)
        (⟨true, ⟨1, 7, 4, Tariffs.TariffId.month⟩, some ⟨4, "ru"⟩,
          some ⟨Tariffs.TariffId.month, 150, 30, none, 3⟩, "u", 0,
          Except.error (XErr.transportCode 2), Except.ok ()⟩ : Act.ActIn)
      = (⟨[], [(1, PayStatus.pending)], []⟩, Except.error (XErr.transportCode 2)) :=
  (activateSubscription_ordering
      (⟨[], [(1, PayStatus.pending)], []⟩ : Act.Db)
      (⟨true, ⟨1, 7, 4, Tariffs.TariffId.month⟩, some ⟨4, "ru"⟩,
        some ⟨Tariffs.TariffId.month, 150, 30, none, 3⟩, "u", 0,
        Except.error (XErr.transportCode 2), Except.ok ()⟩ : Act.ActIn)
      ⟨4, "ru"⟩ ⟨Tariffs.TariffId.month, 150, 30, none, 3⟩
      rfl rfl rfl).1 (XErr.transportCode 2) rfl

/-- C9 (amended): `getServerConfig` surfaces a missing endpoint as an
immediate error with no retry, but `activateSubscription` invoked on a
Payment whose server or tariff cannot be resolved logs and returns
normally — no error is surfaced to its caller and no state changes. -/
theorem notfound_handling (servers : List Xui.ServerCfg) (code : String)
    (db : Act.Db) (inp : Act.ActIn)
    (hmiss : servers.find? (fun s => decide (s.code = code)) = none) :
    Xui.getServerConfig servers code = Except.error (XErr.serverNotFound code) ∧
    (inp.serverLookup = none ∨ inp.tariffLookup = none →
        Act.activateSubscription db inp = (db, Except.ok ())) := by
  constructor
  · simp [Xui.getServerConfig, hmiss]
  · intro hcase
    cases hb : inp.botSet with
    | false => simp [Act.activateSubscription, hb]
    | true =>
        rcases hcase with hsv | htf
        · simp [Act.activateSubscription, hb, hsv]
        · cases hsv : inp.serverLookup with
          | none => simp [Act.activateSubscription, hb, hsv]
          | some srv => simp [Act.activateSubscription, hb, hsv, htf]

/-- C9 witness: an unknown endpoint code errors out of
`getServerConfig`, while `activateSubscription` on a payment whose
server lookup fails returns normally with the store untouched. -/
theorem notfound_handling_witness :
    Xui.getServerConfig [(⟨"ru"⟩ : Xui.ServerCfg)] "xx"
      = Except.error (XErr.serverNotFound "xx") ∧
    Act.activateSubscription
        (⟨[], [(1, PayStatus.pending)], []⟩ : Act.Db)
        (⟨true, ⟨1, 7, 9, Tariffs.TariffId.month⟩, none, none, "u", 0,
          Except.ok (), Except.ok ()⟩ : Act.ActIn)
      = (⟨[], [(1, PayStatus.pending)], []⟩, Except.ok ()) :=
  ⟨(notfound_handling [(⟨"ru"⟩ : Xui.ServerCfg)] "xx"
      (⟨[], [(1, PayStatus.pending)], []⟩ : Act.Db)
      (⟨true, ⟨1, 7, 9, Tariffs.TariffId.month⟩, none, none, "u", 0,
        Except.ok (), Except.ok ()⟩ : Act.ActIn) (by decide)).1,
   (notfound_handling [(⟨"ru"⟩ : Xui.ServerCfg)] "xx"
      (⟨[], [(1, PayStatus.pending)], []⟩ : Act.Db)
      (⟨true, ⟨1, 7, 9, Tariffs.TariffId.month⟩, none, none, "u", 0,
        Except.ok (), Except.ok ()⟩ : Act.ActIn) (by decide)).2 (Or.inl rfl)⟩

/-- C9 counterexample: `activateSubscription` on a Payment whose
server cannot be resolved returns normally (`Except.ok`) with no state
change — the missing-reference error is not surfaced to its caller. -/
theorem notfound_swallowed_cex :
    Act.activateSubscription
        (⟨[], [(1, PayStatus.pending)], []⟩ : Act.Db)
        (⟨true, ⟨1, 7, 9, Tariffs.TariffId.month⟩, none,
          some ⟨Tariffs.TariffId.month, 150, 30, none, 3⟩, "u", 0,
          Except.ok (), Except.ok ()⟩ : Act.ActIn)
      = (⟨[], [(1, PayStatus.pending)], []⟩, Except.ok ()) := by
  rfl

/-- Lemma: `deactivateSubscription i` leaves every row with id `i`
inactive. -/
theorem deact_sets (i : Nat) (l : List Sweep.SubR) :
    ∀ s' ∈ Sweep.deactivateSubscription i l, s'.id = i → s'.isActive = false := by
  intro s' hs' hid
  obtain ⟨s, _, rfl⟩ := List.mem_map.mp hs'
  by_cases h : s.id = i
  · simp [h]
  · rw [if_neg h] at hid ⊢
    exact absurd hid h

/-- Lemma: `deactivateSubscription` never reactivates rows of another id. -/
theorem deact_preserves (i j : Nat) (l : List Sweep.SubR)
    (h : ∀ s' ∈ l, s'.id = j → s'.isActive = false) :
    ∀ s' ∈ Sweep.deactivateSubscription i l, s'.id = j → s'.isActive = false := by
  intro s' hs' hid
  obtain ⟨s, hsl, rfl⟩ := List.mem_map.mp hs'
  by_cases hcase : s.id = i
  · simp [hcase]
  · rw [if_neg hcase] at hid ⊢
    exact h s hsl hid

/-- The deactivation fold of one expiry-sweep tick preserves
"every row with id `j` is inactive". -/
theorem sweep_fold_preserves (removeOk : Nat → Bool) (j : Nat) :
    ∀ (todo acc : List Sweep.SubR),
      (∀ s' ∈ acc, s'.id = j → s'.isActive = false) →
      ∀ s' ∈ Sweep.expirySweepDeact removeOk todo acc,
        s'.id = j → s'.isActive = false := by
  intro todo
  induction todo with
  | nil => intro acc h; exact h
  | cons x t ih =>
      intro acc h
      exact ih (Sweep.deactivateSubscription x.id acc)
        (deact_preserves x.id j acc h)

/-- The deactivation fold leaves every id listed in `todo` inactive. -/
theorem sweep_fold_sets (removeOk : Nat → Bool) :
    ∀ (todo acc : List Sweep.SubR) (x : Sweep.SubR), x ∈ todo →
      ∀ s' ∈ Sweep.expirySweepDeact removeOk todo acc,
        s'.id = x.id → s'.isActive = false := by
  intro todo
  induction todo with
  | nil => intro acc x hx; exact absurd hx (List.not_mem_nil x)
  | cons y t ih =>
      intro acc x hx
      rcases List.mem_cons.mp hx with rfl | hxt
      · exact sweep_fold_preserves removeOk x.id t
          (Sweep.deactivateSubscription x.id acc)
          (deact_sets x.id acc)
      · exact ih (Sweep.deactivateSubscription y.id acc) x hxt

/-- C6: for every Grant that is active with expiry in the past, one
expiry-sweep tick attempts the remote removal, deactivates the Grant
locally whatever the removal outcome (the tick's result is independent
of the removal results), and afterwards no row of that Grant's id
appears among the active subscriptions. -/
theorem expiry_sweep_deactivates (now : Nat) (removeOk removeOk' : Nat → Bool)
    (subs : List Sweep.SubR) (sub : Sweep.SubR)
    (hmem : sub ∈ subs) (hact : sub.isActive = true) (hexp : sub.expiresAt ≤ now) :
    sub.id ∈ Sweep.expirySweepAttempts now subs ∧
    (∀ s' ∈ Sweep.expirySweepTick now removeOk subs,
        s'.id = sub.id → s'.isActive = false) ∧
    (∀ s' ∈ Sweep.activeSubs (Sweep.expirySweepTick now removeOk subs),
        s'.id ≠ sub.id) ∧
    Sweep.expirySweepTick now removeOk subs
      = Sweep.expirySweepTick now removeOk' subs := by
  have hexpmem : sub ∈ Sweep.getExpiredSubscriptions now subs := by
    simp [Sweep.getExpiredSubscriptions, List.mem_filter, hmem, hact, hexp]
  refine ⟨?_, ?_, ?_, rfl⟩
  · exact List.mem_map.mpr ⟨sub, hexpmem, rfl⟩
  · exact sweep_fold_sets removeOk (Sweep.getExpiredSubscriptions now subs)
      subs sub hexpmem
  · intro s' hs' hid
    have hs'tick : s' ∈ Sweep.expirySweepTick now removeOk subs :=
      (List.mem_filter.mp hs').1
    have hs'act : s'.isActive = true := (List.mem_filter.mp hs').2
    have := sweep_fold_sets removeOk (Sweep.getExpiredSubscriptions now subs)
      subs sub hexpmem s' hs'tick hid
    rw [hs'act] at this
    exact Bool.noConfusion this

/-- C6 witness: an expired active Grant (id 1) is deactivated whether
the remote removal fails or succeeds, its removal is attempted, and it
is gone from the active list. -/
theorem expiry_sweep_deactivates_witness :
    (1 : Nat) ∈ Sweep.expirySweepAttempts 100 [⟨1, true, 50⟩, ⟨2, true, 200⟩] ∧
    Sweep.expirySweepTick 100 (fun _ => false) [⟨1, true, 50⟩, ⟨2, true, 200⟩]
      = Sweep.expirySweepTick 100 (fun _ => true) [⟨1, true, 50⟩, ⟨2, true, 200⟩] :=
  ⟨(expiry_sweep_deactivates 100 (fun _ => false) (fun _ => true)
      [⟨1, true, 50⟩, ⟨2, true, 200⟩] ⟨1, true, 50⟩
      (by decide) rfl (by decide)).1,
   (expiry_sweep_deactivates 100 (fun _ => false) (fun _ => true)
      [⟨1, true, 50⟩, ⟨2, true, 200⟩] ⟨1, true, 50⟩
      (by decide) rfl (by decide)).2.2.2⟩

/-- C2 (amended): `handleCheckPayment` verifies `status == 'pending'`
when it fetches the Payment — before the awaited gateway query, not
immediately before `activateSubscription` — and `pollPendingPayments`
only filters on `'pending'` when it fetches its batch; neither path
re-checks at activation time.  Run to completion one after the other
(in either order) on one pending Payment, the fetch-time checks still
ensure exactly one Grant is created. -/
theorem activation_check_at_fetch (p : Conc.PayR) (label : String)
    (paidF : String → Bool) (hst : p.status = PayStatus.pending)
    (hinv : p.invoiceId ≠ "") (hp : paidF p.invoiceId = true) :
    (∀ st q, Conc.getPaymentByInvoice label st = some q →
        q.status ≠ PayStatus.pending → Conc.checkFetch label st = none) ∧
    (Conc.pollRun paidF (Conc.checkRun p.invoiceId true ⟨[p], []⟩)).subs = [p.id] ∧
    (Conc.checkRun p.invoiceId true (Conc.pollRun paidF ⟨[p], []⟩)).subs = [p.id] := by
  refine ⟨?_, ?_, ?_⟩
  · intro st q hq hne
    simp [Conc.checkFetch, hq, hne]
  · have h1 : Conc.checkRun p.invoiceId true ⟨[p], []⟩
        = Conc.activateGrant p ⟨[p], []⟩ := by
      simp [Conc.checkRun, Conc.checkFetch, Conc.getPaymentByInvoice,
        List.find?, hst, Conc.checkAct]
    rw [h1]
    simp [Conc.pollRun, Conc.pollFetch, Conc.getPendingPayments,
      Conc.activateGrant, Conc.completePay, List.filter, hst, Conc.pollAct]
  · have h1 : Conc.pollRun paidF ⟨[p], []⟩ = Conc.activateGrant p ⟨[p], []⟩ := by
      simp [Conc.pollRun, Conc.pollFetch, Conc.getPendingPayments,
        List.filter, hst, Conc.pollAct, hinv, hp]
    rw [h1]
    simp [Conc.checkRun, Conc.checkFetch, Conc.getPaymentByInvoice,
      Conc.activateGrant, Conc.completePay, List.find?, hst, Conc.checkAct]

/-- C2 witness: on one pending Payment with label "pay1", the manual
check followed by a full poll tick — and the poll tick followed by the
manual check — each create exactly one Grant. -/
theorem activation_check_at_fetch_witness :
    (Conc.pollRun (fun _ => true)
        (Conc.checkRun "pay1" true ⟨[⟨1, "pay1", PayStatus.pending⟩], []⟩)).subs = [1] ∧
    (Conc.checkRun "pay1" true
        (Conc.pollRun (fun _ => true) ⟨[⟨1, "pay1", PayStatus.pending⟩], []⟩)).subs = [1] :=
  ⟨(activation_check_at_fetch ⟨1, "pay1", PayStatus.pending⟩ "pay1"
      (fun _ => true) rfl (by decide) rfl).2.1,
   (activation_check_at_fetch ⟨1, "pay1", PayStatus.pending⟩ "pay1"
      (fun _ => true) rfl (by decide) rfl).2.2⟩

/-- C2 counterexample: in the interleaving where the manual check
fetches the pending Payment and the scheduled poll reads its pending
batch before either activates (both then receive a positive gateway
answer), two Grants are created for Payment id 1. -/
theorem concurrent_double_activation_cex :
    (Conc.raceRun "pay1" ⟨[⟨1, "pay1", PayStatus.pending⟩], []⟩).subs = [1, 1] ∧
    (Conc.raceRun "pay1" ⟨[⟨1, "pay1", PayStatus.pending⟩], []⟩).subs.count 1 = 2 := by
  decide

/-- C10: the sales-blocked gate rejects exactly the paid tariffs:
while sales are blocked a tariff with positive price is rejected
before any Payment row is created, the trial tariff has price 0 on
every configured server, and a blocked-sales trial buy (trial not yet
used) still creates its zero-amount Payment and proceeds to immediate
activation. -/
theorem handleBuy_sales_gate (t : Tariffs.Tariff) (trialUsed : Bool)
    (ps : List Nat) (code : String) (hp : 0 < t.price) :
    Buy.handleBuy true true (some t) trialUsed ps
      = (Buy.BuyOutcome.salesRejected, ps) ∧
    (∀ tt, Tariffs.getTariff code Tariffs.TariffId.trial = some tt →
        tt.price = 0) ∧
    (∀ tt, Tariffs.getTariff code Tariffs.TariffId.trial = some tt →
        Buy.handleBuy true true (some tt) false ps
          = (Buy.BuyOutcome.trialActivated, ps ++ [0])) := by
  have htrial : ∀ tt, Tariffs.getTariff code Tariffs.TariffId.trial = some tt →
      tt = ⟨Tariffs.TariffId.trial, 0, 1, none, 1⟩ := by
    intro tt htt
    simp only [Tariffs.getTariff, Tariffs.getServerTariffs] at htt
    by_cases hru : code = "ru"
    · rw [if_pos hru] at htt
      simp [Tariffs.ruTariffs, List.find?] at htt
      exact htt.symm
    · rw [if_neg hru] at htt
      by_cases hnl : code = "nl"
      · rw [if_pos hnl] at htt
        simp [Tariffs.nlTariffs, List.find?] at htt
        exact htt.symm
      · rw [if_neg hnl] at htt
        exact absurd htt (by simp)
  refine ⟨?_, ?_, ?_⟩
  · simp [Buy.handleBuy, hp]
  · intro tt htt
    rw [htrial tt htt]
  · intro tt htt
    rw [htrial tt htt]
    rfl

/-- C10 witness: with sales blocked, buying the ru 30-day tariff is
rejected with no Payment created, while the ru trial tariff still
creates a zero-amount Payment and activates. -/
theorem handleBuy_sales_gate_witness :
    Buy.handleBuy true true (some ⟨Tariffs.TariffId.month, 150, 30, none, 3⟩) false []
      = (Buy.BuyOutcome.salesRejected, []) ∧
    Buy.handleBuy true true (Tariffs.getTariff "ru" Tariffs.TariffId.trial) false []
      = (Buy.BuyOutcome.trialActivated, [0]) :=
  ⟨(handleBuy_sales_gate ⟨Tariffs.TariffId.month, 150, 30, none, 3⟩ false [] "ru"
      (by decide)).1,
   (handleBuy_sales_gate ⟨Tariffs.TariffId.month, 150, 30, none, 3⟩ false [] "ru"
      (by decide)).2.2 ⟨Tariffs.TariffId.trial, 0, 1, none, 1⟩ rfl⟩

end TgVpnBot
